import Mathlib

/-!
Verification of the Bokelai (books.com.tw) calibre metadata-source adapter.

The adapter is a single Python class `Bokelai` (src/__init__.py) implementing
the calibre plugin contract: `identify`, `download_cover`, `get_book_url`,
`get_cached_cover_url`, with two helpers `retrieve_bokelai_detail` and
`parse_bokelai_query_page`.

Shallow embedding conventions:
  * Python strings are `List Char` (`Str`); a Lean string literal `"x"` is
    converted with `.data`.
  * The HTML page is abstracted to the values the XPath expressions extract
    (the JSON-LD fields, the comment text nodes, the classification-anchor
    texts, the result-list hrefs); all string processing downstream of those
    extractions is embedded faithfully.
  * Network I/O is a parameter: a detail-page fetch yields `Option DetailPage`
    (`none` = transport failure), the search fetch yields
    `Except Str (List Str)` (`.error msg` = transport failure with the
    stringified exception, `.ok hrefs` = anchor hrefs of the result list).
  * An uncaught Python exception is `Except.error (e : PyExn)`.
  * The host-owned id → cover-URL cache is an association list threaded
    explicitly.
-/

namespace Bokelai

/-- A Python (unicode) string, as its character sequence. -/
abbrev Str := List Char

/-- Python `str.split(sep)` for a one-character separator: split at every
occurrence, keeping empty pieces; on the empty string the result is `[[]]`,
matching CPython. -/
def splitOnChar (sep : Char) : Str → List Str
  | [] => [[]]
  | c :: rest =>
    match splitOnChar sep rest with
    | [] => [[c]]
    | h :: t => if c = sep then [] :: h :: t else (c :: h) :: t

/-- Python `"\n".join(xs)`. -/
def joinLines (xs : List Str) : Str :=
  List.intercalate (['\n'] : Str) xs

/-- The body of the tag loop in `retrieve_bokelai_detail` (src lines 76–83),
for one classification anchor text.  The source reads

    if "／" in ele.text: tags.extend(ele.text.split("／"))
    if "/" in ele.text: tags.extend(ele.text.split("/"))
    else: tags.append(ele.text)

Both separators are single characters, so Python substring containment is
character containment.  Note the second conditional is `if`, not `elif`: its
`else` fires whenever the text has no ASCII slash, even when the full-width
split already ran. -/
def tagsStep (tags : List Str) (text : Str) : List Str :=
  let tags1 := if text.contains '／' then tags ++ splitOnChar '／' text else tags
  if text.contains '/' then tags1 ++ splitOnChar '/' text
  else tags1 ++ [text]

/-- Tag extraction over all anchors under the `本書分類：` list item
(src lines 75–83). -/
def extractTags (anchors : List Str) : List Str :=
  anchors.foldl tagsStep []

instance {ε : Type u} {α : Type v} [DecidableEq ε] [DecidableEq α] :
    DecidableEq (Except ε α) := fun a b =>
  match a, b with
  | .error e, .error f =>
    if h : e = f then .isTrue (by rw [h]) else .isFalse (by simp [h])
  | .error _, .ok _ => .isFalse (by simp)
  | .ok _, .error _ => .isFalse (by simp)
  | .ok x, .ok y =>
    if h : x = y then .isTrue (by rw [h]) else .isFalse (by simp [h])

/-- An uncaught Python exception escaping an adapter method. -/
inductive PyExn where
  /-- Python `list[0]` on an empty list. -/
  | indexError
  /-- Python `None.group(...)` after a failed `re.search`. -/
  | attributeError
  deriving DecidableEq, Repr

/-- A calendar date, the payload of `calibre.utils.date.parse_date`. -/
structure CalDate where
  year : Nat
  month : Nat
  day : Nat
  deriving DecidableEq, Repr

/-- The fields the code reads from the page's JSON-LD blob.  `author` and
`publisher` hold the `name` field of each element of the corresponding JSON
arrays; `isbn` collapses the `workExample.workExample.isbn` path. -/
structure InfoJson where
  name : Str
  author : List Str
  publisher : List Str
  isbn : Str
  datePublished : Str
  image : Str
  deriving DecidableEq, Repr

/-- A successfully fetched detail page, abstracted to the values its XPath
expressions extract: the JSON-LD blob, the text nodes under the first
`div.content` element, and the texts of the anchors inside the
`本書分類：` list item. -/
structure DetailPage where
  json : InfoJson
  commentTexts : List Str
  tagAnchors : List Str
  deriving DecidableEq, Repr

/-- The calibre `Metadata` record as this adapter populates it
(src lines 93–112).  `coverUrl` is the `has_bokelai_cover` attribute. -/
structure Record where
  title : Str
  authors : List Str
  identifiers : List (Str × Str)
  publisher : Str
  comments : Str
  isbn : Str
  tags : List Str
  pubdate : Option CalDate
  coverUrl : Option Str
  deriving DecidableEq, Repr

/-- Error/exception-level log messages the adapter produces.  Info-level
logging (URLs, raw JSON, field dumps) carries no data the claims mention and
is omitted from the model. -/
inductive ErrLog where
  /-- Logged by `log.exception` when the detail-page fetch raises (src line 54). -/
  | detailFetchFailed (url : Str)
  /-- Logged by `log.error` when `parse_date` raises (src line 105). -/
  | pubdateParseFailed (s : Str)
  /-- Logged by `log.exception` when the search fetch raises (src line 204). -/
  | identifyFetchFailed (url : Str)
  /-- Logged by `log.error('No result found.\n', ...)` (src line 209). -/
  | noResult (url : Str)
  /-- Logged by `log.exception` when the cover-image fetch raises (src line 167). -/
  | coverFetchFailed (url : Str)
  deriving DecidableEq, Repr

/-- The host-owned identifier → cover-URL cache, newest binding first. -/
abbrev Cache := List (Str × Str)

/-- Python `dict.get(k, None)` over an association list (first binding wins,
matching a dict that was built without duplicate keys). -/
def lookup (m : List (Str × Str)) (k : Str) : Option Str :=
  (m.find? (fun p => p.1 == k)).map Prod.snd

/-- Host `cache_identifier_to_cover_url(id, url)`: record a binding. -/
def cacheSet (cache : Cache) (k v : Str) : Cache :=
  (k, v) :: cache

/-- Host `cached_identifier_to_cover_url(id)`: read a binding. -/
def cacheGet (cache : Cache) (k : Str) : Option Str :=
  lookup cache k

/-- Python truthiness of an optional string: `None` and `""` are falsy. -/
def truthyOpt : Option Str → Bool
  | none => false
  | some s => !s.isEmpty

/-- Template `https://www.books.com.tw/products/%s` (src line 28). -/
def BOKELAI_DETAIL_URL (id_ : Str) : Str :=
  ("https://www.books.com.tw/products/").data ++ id_

/-- Template `https://search.books.com.tw/search/query/key/%s` (src line 29). -/
def BOKELAI_QUERY_URL (q : Str) : Str :=
  ("https://search.books.com.tw/search/query/key/").data ++ q

/-- A character the regex class `[^?=&]` accepts. -/
def nonSpecial (c : Char) : Bool :=
  !(c == '?' || c == '=' || c == '&')

/-- Backtracking for the first `[^?=&]*` of the cover pattern: the largest
`k ≤ kmax` at which the literal id matches, tried greedily from `kmax` down. -/
def greedyK (id_ rest : Str) : Nat → Option Nat
  | 0 => if List.isPrefixOf id_ rest then some 0 else none
  | k + 1 =>
    if List.isPrefixOf id_ (rest.drop (k + 1)) then some (k + 1)
    else greedyK id_ rest k

/-- Attempt of the pattern `https[^?=&]*ID[^?=&]*` at the start of `s`:
`https` literally, then a greedy run of non-`?=&` characters, then the id
literally, then another greedy run; returns the matched substring
(`group(0)`).  Assumes the id contains no regex metacharacters, as the code
splices it into the pattern unescaped and real catalog ids are alphanumeric. -/
def coverMatchHere (id_ s : Str) : Option Str :=
  if List.isPrefixOf ("https").data s then
    let rest := s.drop 5
    let kmax := (rest.takeWhile nonSpecial).length
    match greedyK id_ rest kmax with
    | none => none
    | some k =>
      let b := ((rest.drop k).drop id_.length).takeWhile nonSpecial
      some (("https").data ++ rest.take k ++ id_ ++ b)
  else none

/-- Model of `re.search(r'https[^\?\=\&]*' + id + r'[^\?\=\&]*', s)` (src line 86):
try the pattern at each position left to right, return the first match. -/
def coverSearch (id_ : Str) : Str → Option Str
  | [] => coverMatchHere id_ []
  | c :: rest =>
    match coverMatchHere id_ (c :: rest) with
    | some m => some m
    | none => coverSearch id_ rest

/-- What one call to `retrieve_bokelai_detail` did: the records put on the
result queue, the cover cache afterwards, and the error-level log lines. -/
structure DetailOutcome where
  emitted : List Record
  cache : Cache
  errlog : List ErrLog
  deriving DecidableEq, Repr

/-- The body of `Bokelai.retrieve_bokelai_detail` after a successful page
fetch (src lines 57–114).  `parse_date` abstracts the calibre collaborator
`calibre.utils.date.parse_date` (`none` = it raised).  Field extraction
follows src lines 64–114 in order:

  * `author[0]`/`publisher[0]` raise IndexError on an empty array;
  * `re.search(cover pattern).group(0)` raises AttributeError when the
    search returns no match (src line 86), so the `else` branch at
    src line 111 that would leave `has_bokelai_cover = None` is unreachable —
    it is kept in the model as the `none` arm of `covcache`;
  * the `if not authors` guard (src line 88) and the pubdate try/except
    (src lines 99–105) are kept as written. -/
def retrieve_detail_parsed (bokelai_id : Str) (pg : DetailPage)
    (parse_date : Str → Option CalDate) (cache : Cache) :
    Except PyExn DetailOutcome :=
  match pg.json.author with
    | [] => .error .indexError
    | author0 :: _ =>
      match pg.json.publisher with
      | [] => .error .indexError
      | publisher0 :: _ =>
        let title := pg.json.name
        let authors := splitOnChar ',' author0
        let isbn := pg.json.isbn
        let pubdate := pg.json.datePublished
        let comments := joinLines pg.commentTexts
        let tags := extractTags pg.tagAnchors
        match coverSearch bokelai_id pg.json.image with
        | none => .error .attributeError
        | some cover_url =>
          let authors := if authors.isEmpty then [("Unknown").data] else authors
          let pubres : Option CalDate × List ErrLog :=
            if pubdate.isEmpty then (none, [])
            else
              match parse_date pubdate with
              | some d => (some d, [])
              | none => (none, [.pubdateParseFailed pubdate])
          let covcache : Option Str × Cache :=
            match (some cover_url : Option Str) with
            | some u => (some u, cacheSet cache bokelai_id u)
            | none => (none, cache)
          .ok ⟨[⟨title, authors,
                 [(("bokelai").data, bokelai_id), (("isbn").data, isbn)],
                 publisher0, comments, isbn, tags, pubres.1, covcache.1⟩],
               covcache.2, pubres.2⟩

/-- Model of `Bokelai.retrieve_bokelai_detail` (src lines 44–114).  `page` is the
outcome of the detail-page fetch: `none` means the fetch raised, in which
case the exception is logged and the method returns without emitting
(src lines 49–55); otherwise `retrieve_detail_parsed` runs. -/
def retrieve_bokelai_detail (bokelai_id : Str) (page : Option DetailPage)
    (parse_date : Str → Option CalDate) (cache : Cache) :
    Except PyExn DetailOutcome :=
  match page with
  | none => .ok ⟨[], cache, [.detailFetchFailed (BOKELAI_DETAIL_URL bokelai_id)]⟩
  | some pg => retrieve_detail_parsed bokelai_id pg parse_date cache

/-- Suffix of `s` after the first occurrence of `pat`, if any. -/
def afterFirst (pat : Str) : Str → Option Str
  | [] => if pat.isEmpty then some [] else none
  | c :: rest =>
    if List.isPrefixOf pat (c :: rest) then some ((c :: rest).drop pat.length)
    else afterFirst pat rest

/-- Model of `re.search(r"(?<=item\/)[^\/]*", url).group()` (src line 121): the run of
non-slash characters after the first `item/`; `.group()` on a failed search
raises AttributeError. -/
def extractBid (url : Str) : Except PyExn Str :=
  match afterFirst ("item/").data url with
  | none => .error .attributeError
  | some rest => .ok (rest.takeWhile (fun c => c != '/'))

/-- Model of `Bokelai.parse_bokelai_query_page` (src lines 116–123), given the hrefs
the XPath `//form[@id='searchlist']/ul/li/a[@rel='mid_image']/@href`
extracted from the raw page. -/
def parse_bokelai_query_page (hrefs : List Str) : Except PyExn (List Str) :=
  hrefs.mapM extractBid

/-- Model of `Bokelai.get_book_url` (src lines 125–129). -/
def get_book_url (identifiers : List (Str × Str)) : Option (Str × Str × Str) :=
  match lookup identifiers ("bokelai").data with
  | some db => some (("bokelai").data, db, BOKELAI_DETAIL_URL db)
  | none => none

/-- Model of `Bokelai.get_cached_cover_url` (src lines 169–174).  The host cache is
passed in and handed back unchanged, making the absence of writes explicit;
the guard is `is not None`, so an empty-string id is still looked up. -/
def get_cached_cover_url (cache : Cache) (identifiers : List (Str × Str)) :
    Option Str × Cache :=
  match lookup identifiers ("bokelai").data with
  | some bokelai_id => (cacheGet cache bokelai_id, cache)
  | none => (none, cache)

/-- The injected collaborators `identify` needs: the search-page fetch
(`.error msg` = `br.open_novisit` raised, with the stringified exception;
`.ok hrefs` = the result-list anchor hrefs of the fetched page), the
detail-page fetch, and the calibre date parser. -/
structure SearchEnv where
  searchPage : Str → Except Str (List Str)
  detailPage : Str → Option DetailPage
  parse_date : Str → Option CalDate

/-- An externally visible step `identify` performed. -/
inductive IdAction where
  | retrieveDetail (id_ : Str)
  | searchFetch (url : Str)
  deriving DecidableEq, Repr

/-- What one call to `identify` did: the steps taken, the records put on the
result queue, the cover cache afterwards, the error-level log lines, and the
method's return value (`some msg` = the error-description string returned at
src line 205, `none` = Python `None`). -/
structure IdentifyOutcome where
  trace : List IdAction
  emitted : List Record
  cache : Cache
  errlog : List ErrLog
  ret : Option Str
  deriving DecidableEq, Repr

/-- The query string built at src lines 192–197: start from `''`, append the
title if truthy, then append each author in order — no separators. -/
def search_str_of (title : Option Str) (authors : Option (List Str)) : Str :=
  let s : Str := []
  let s := if truthyOpt title then s ++ title.getD [] else s
  match authors with
  | some la => if la.isEmpty then s else la.foldl (· ++ ·) s
  | none => s

/-- The search URL `identify` fetches (src lines 186–198): from the ISBN when
it is truthy, else from the title/authors concatenation.  The source writes
this as two `if`s (`if isbn: ...` then `if not isbn: ...`), which together
are this if/else. -/
def identify_search_url (title : Option Str) (authors : Option (List Str))
    (identifiers : List (Str × Str)) : Str :=
  let isbn := lookup identifiers ("isbn").data
  if truthyOpt isbn then BOKELAI_QUERY_URL (isbn.getD [])
  else BOKELAI_QUERY_URL (search_str_of title authors)

/-- The search path of `identify` (src lines 185–215), taken when no truthy
bokelai id is present.  On fetch failure: log and return the stringified
exception (src lines 203–205).  Then parse candidates; on an empty list log
`No result found` and return `None` (src lines 207–210).  Otherwise loop over
the candidates calling `retrieve_bokelai_detail` for each one.  The loop's
abort check (src lines 213–214) is

    if abort.is_set:
        pass

— it evaluates the bound-method object `abort.is_set` (always truthy, never
called) and its body is `pass`, so the abort flag is never consulted and the
loop always runs every candidate; hence no abort parameter appears here. -/
def identify_search (env : SearchEnv) (cache : Cache) (title : Option Str)
    (authors : Option (List Str)) (identifiers : List (Str × Str)) :
    Except PyExn IdentifyOutcome :=
  let search_url := identify_search_url title authors identifiers
  match env.searchPage search_url with
  | .error e =>
    .ok ⟨[.searchFetch search_url], [], cache, [.identifyFetchFailed search_url], some e⟩
  | .ok hrefs =>
    match parse_bokelai_query_page hrefs with
    | .error exn => .error exn
    | .ok candidates =>
      if candidates.isEmpty then
        .ok ⟨[.searchFetch search_url], [], cache, [.noResult search_url], none⟩
      else
        candidates.foldlM
          (fun acc bid =>
            match retrieve_bokelai_detail bid (env.detailPage bid) env.parse_date acc.cache with
            | .error exn => .error exn
            | .ok d =>
              .ok ⟨acc.trace ++ [.retrieveDetail bid], acc.emitted ++ d.emitted,
                   d.cache, acc.errlog ++ d.errlog, acc.ret⟩)
          (⟨[.searchFetch search_url], [], cache, [], none⟩ : IdentifyOutcome)

/-- Model of `Bokelai.identify` (src lines 176–215).  `abort` is the state of the
host's abort flag; see `identify_search` for why the candidate loop ignores
it.  First branch (src lines 179–183): a truthy bokelai id delegates to
`retrieve_bokelai_detail` and returns `None`; otherwise the search path
runs. -/
def identify (env : SearchEnv) (cache : Cache) (abort : Bool)
    (title : Option Str) (authors : Option (List Str))
    (identifiers : List (Str × Str)) : Except PyExn IdentifyOutcome :=
  let bokelai_id := lookup identifiers ("bokelai").data
  match bokelai_id with
  | some bid =>
    if !bid.isEmpty then
      match retrieve_bokelai_detail bid (env.detailPage bid) env.parse_date cache with
      | .error exn => .error exn
      | .ok d => .ok ⟨[.retrieveDetail bid], d.emitted, d.cache, d.errlog, none⟩
    else identify_search env cache title authors identifiers
  | none => identify_search env cache title authors identifiers

/-- What the tail of `download_cover` did: the image payloads put on the
result queue (each one the `cdata` of a `(self, cdata)` pair) and the
error-level log lines. -/
structure CoverOutcome where
  emitted : List (List Nat)
  errlog : List ErrLog
  deriving DecidableEq, Repr

/-- The tail of `Bokelai.download_cover` (src lines 154–167), after the
cached-URL resolution phase (src lines 131–153, which runs `identify` into a
private queue and ranks the results) has produced `cached_url`.  `abort` is
`abort.is_set()` at src line 158 — here the method *is* called.  `fetchCover`
is the image fetch, returning the body bytes or a transport failure; bytes
are modelled as `List Nat`.  A fetched body is put on the queue only behind
`if cdata:`, so an empty body is dropped silently. -/
def download_cover_tail (cached_url : Option Str) (abort : Bool)
    (fetchCover : Str → Except Unit (List Nat)) : CoverOutcome :=
  match cached_url with
  | none => ⟨[], []⟩
  | some u =>
    if abort then ⟨[], []⟩
    else
      match fetchCover u with
      | .error _ => ⟨[], [.coverFetchFailed u]⟩
      | .ok cdata => if cdata.isEmpty then ⟨[], []⟩ else ⟨[cdata], []⟩

/-- Decimal digits of an all-digit, non-empty string. -/
def decNat : Str → Option Nat
  | [] => none
  | cs =>
    if cs.all (fun c => c.isDigit) then
      some (cs.foldl (fun n c => 10 * n + (c.toNat - 48)) 0)
    else none

/-- Modelled from the spec: the host collaborator
`calibre.utils.date.parse_date` is not part of this repository; per the spec
(§3) the publication date is "parsed from a `YYYY/MM/DD`-shaped string with
day defaulted to 15 if absent/unparseable", the default day coming from the
`utcnow().replace(day=15)` default the code passes (src line 102).  Strings
of any other shape fail (`none`, the raised-exception case). -/
def parse_date_spec (s : Str) : Option CalDate :=
  match (splitOnChar '/' s).map decNat with
  | [some y, some m, some d] => some ⟨y, m, d⟩
  | [some y, some m] => some ⟨y, m, 15⟩
  | _ => none

/-- A detail page for id `0010` whose JSON-LD blob is well formed and whose
`image` field matches the cover pattern. -/
def pageC2 : DetailPage :=
  ⟨⟨("T").data, [("A").data], [("P").data], ("9789862376836").data, [], ("https0010").data⟩,
   [], []⟩

/-- A search environment whose query page offers the single candidate `0010`
and whose detail fetches succeed with `pageC2`. -/
def envC2 : SearchEnv :=
  ⟨fun _ => .ok [("a/item/0010/x").data], fun _ => some pageC2, parse_date_spec⟩

/-- A detail page whose JSON-LD `image` field is empty, so the cover pattern
for id `123` has no match anywhere in it. -/
def pageC3 : DetailPage :=
  ⟨⟨("T").data, [("A").data], [("P").data], ("I").data, [], []⟩, [], []⟩

/-- A detail page for id `7` whose JSON-LD `author[0].name` is the empty
string. -/
def pageC4 : DetailPage :=
  ⟨⟨("T").data, [[]], [("P").data], ("I").data, [], ("https7").data⟩, [], []⟩

/-- A search environment whose query page is empty and whose detail fetches
fail. -/
def envC5 : SearchEnv :=
  ⟨fun _ => .ok [], fun _ => none, parse_date_spec⟩

/-- A search environment whose query fetch raises, stringified as `boom`. -/
def envC6err : SearchEnv :=
  ⟨fun _ => .error ("boom").data, fun _ => none, parse_date_spec⟩

/-- A search environment whose query fetch succeeds with an empty results
page. -/
def envC6empty : SearchEnv :=
  ⟨fun _ => .ok [], fun _ => none, parse_date_spec⟩

/-- A search environment whose detail fetch serves, for the id `1`, a detail
page with a matching cover and a well-formed JSON blob. -/
def envC8 : SearchEnv :=
  ⟨fun _ => .ok [],
   fun _ => some ⟨⟨("T").data, [("A").data], [("P").data], ("I").data, [],
     ("https1").data⟩, [], []⟩,
   parse_date_spec⟩

/-- A detail page for id `3` whose date string `bad` is unparseable. -/
def pageC7 : DetailPage :=
  ⟨⟨("T").data, [("A").data], [("P").data], ("I").data, ("bad").data,
    ("https3").data⟩, [("x").data], [("G").data]⟩

/-- The outcome of retrieving `pageC7` under id `3`: one record, date unset,
parse error logged, all other fields populated. -/
def oC7 : DetailOutcome :=
  ⟨[⟨("T").data, [("A").data],
     [(("bokelai").data, ("3").data), (("isbn").data, ("I").data)],
     ("P").data, ("x").data, ("I").data, [("G").data], none,
     some ("https3").data⟩],
   [(("3").data, ("https3").data)], [.pubdateParseFailed ("bad").data]⟩

/-- On a fetched page, `retrieve_bokelai_detail` is its parsing body. -/
theorem retrieve_bokelai_detail_some (bokelai_id : Str) (pg : DetailPage)
    (parse_date : Str → Option CalDate) (cache : Cache) :
    retrieve_bokelai_detail bokelai_id (some pg) parse_date cache =
      retrieve_detail_parsed bokelai_id pg parse_date cache := rfl

example : splitOnChar ',' ([] : Str) = [[]] := by decide

example : coverSearch ("123").data ("x https123abc?q=1").data =
    some ("https123abc").data := by
  decide

example : parse_bokelai_query_page [("https://www.books.com.tw/item/0010/x").data] =
    .ok [("0010").data] := by decide

example : parse_bokelai_query_page [("https://nothing").data] =
    .error .attributeError := by
  decide

example : parse_date_spec ("2020/05/03").data = some ⟨2020, 5, 3⟩ := by decide

example : parse_date_spec ("banana").data = none := by decide

/-- C1: the spec says each classification anchor's text is split on the
full-width or ASCII slash and the pieces flattened, each piece appearing
exactly once, so that anchors `["Fiction／Drama", "Romance"]` yield
`["Fiction", "Drama", "Romance"]`.  The code's tag loop uses `if`/`if`/`else`
rather than `if`/`elif`/`else`: a text containing the full-width slash but no
ASCII slash is both split and appended whole, so those anchors actually
yield `["Fiction", "Drama", "Fiction／Drama", "Romance"]`. -/
theorem c1_tags_duplicate_fullwidth_split :
    extractTags [("Fiction／Drama").data, ("Romance").data] =
      [("Fiction").data, ("Drama").data, ("Fiction／Drama").data, ("Romance").data] ∧
    extractTags [("Fiction／Drama").data, ("Romance").data] ≠
      [("Fiction").data, ("Drama").data, ("Romance").data] := by
  decide

/-- C2: the spec says the abort flag is checked before each iteration of the
multi-candidate loop, so with the flag set no detail retrieval runs.  The
code's check is `if abort.is_set: pass` — the method object is never called
and the body does nothing — so even with the abort flag set from the start
the loop fetches every candidate: here, with abort set and one candidate,
`identify` still performs the detail retrieval and emits a record. -/
theorem c2_abort_flag_never_consulted :
    (identify envC2 [] true (some ("T").data) none []).map
        (fun o => (o.trace, o.emitted.length)) =
      .ok ([.searchFetch (BOKELAI_QUERY_URL ("T").data),
            .retrieveDetail ("0010").data], 1) := by
  decide

/-- C3: the spec says that when the JSON-LD `image` field has no substring
matching the cover pattern, the cover URL is left absent, nothing is raised,
and the record is still emitted.  The code calls `.group(0)` directly on the
`re.search` result, which is `None` on no match, so it raises AttributeError
and no record is emitted. -/
theorem c3_cover_no_match_raises :
    coverSearch ("123").data pageC3.json.image = none ∧
    retrieve_bokelai_detail ("123").data (some pageC3) parse_date_spec [] =
      .error .attributeError := by
  decide

/-- C4: splitting `"A,B,C"` on `','` does give `["A", "B", "C"]`, but the
claimed `["Unknown"]` placeholder for an empty author field never happens:
Python's `"".split(",")` is `[""]`, which is truthy, so the `if not authors`
guard is dead and a page whose `author[0].name` is empty yields the authors
list `[""]`. -/
theorem c4_empty_author_not_unknown :
    splitOnChar ',' ("A,B,C").data = [("A").data, ("B").data, ("C").data] ∧
    (retrieve_bokelai_detail ("7").data (some pageC4) parse_date_spec []).map
        (fun o => o.emitted.map Record.authors) =
      .ok [[([] : Str)]] ∧
    [([] : Str)] ≠ [("Unknown").data] := by
  decide

/-- C9: `get_cached_cover_url` is pure and idempotent — it hands the host
cache back unchanged, a second call gives the same result, it returns
`none` whenever the identifiers map has no bokelai id, and otherwise it
returns exactly the host cache's value for that id. -/
theorem c9_get_cached_cover_url_pure (cache : Cache)
    (identifiers : List (Str × Str)) :
    (get_cached_cover_url cache identifiers).2 = cache
    ∧ get_cached_cover_url (get_cached_cover_url cache identifiers).2 identifiers =
        get_cached_cover_url cache identifiers
    ∧ (lookup identifiers ("bokelai").data = none →
        (get_cached_cover_url cache identifiers).1 = none)
    ∧ (∀ bid, lookup identifiers ("bokelai").data = some bid →
        (get_cached_cover_url cache identifiers).1 = cacheGet cache bid) := by
  cases h : lookup identifiers (("bokelai").data) with
  | none => simp [get_cached_cover_url, h]
  | some bid => simp [get_cached_cover_url, h]

/-- Witness for C9 at a one-entry cache: a present id reads the cache, an
empty identifiers map reads nothing. -/
theorem c9_get_cached_cover_url_pure_witness :
    (get_cached_cover_url [(("5").data, ("u").data)]
        [(("bokelai").data, ("5").data)]).1 =
      cacheGet [(("5").data, ("u").data)] ("5").data
    ∧ (get_cached_cover_url [(("5").data, ("u").data)] []).1 = none :=
  ⟨(c9_get_cached_cover_url_pure _ _).2.2.2 (("5").data) (by decide),
   (c9_get_cached_cover_url_pure _ _).2.2.1 (by decide)⟩

/-- C10: the tail of `download_cover` puts a cover payload on the result
queue only when the fetched body is non-empty — every emitted payload is
non-empty, and a fetch that succeeds with empty bytes emits nothing and
logs no error. -/
theorem c10_cover_payloads_nonempty (cached : Option Str) (abort : Bool)
    (fetchCover : Str → Except Unit (List Nat)) :
    (∀ b, b ∈ (download_cover_tail cached abort fetchCover).emitted → b ≠ [])
    ∧ (∀ u, cached = some u → abort = false → fetchCover u = .ok [] →
        download_cover_tail cached abort fetchCover = ⟨[], []⟩) := by
  constructor
  · intro b hb
    cases cached with
    | none => simp [download_cover_tail] at hb
    | some u =>
      cases habort : abort with
      | true => simp [download_cover_tail, habort] at hb
      | false =>
        cases hf : fetchCover u with
        | error e => simp [download_cover_tail, habort, hf] at hb
        | ok cdata =>
          cases hc : cdata.isEmpty with
          | true => simp [download_cover_tail, habort, hf, hc] at hb
          | false =>
            simp [download_cover_tail, habort, hf, hc] at hb
            subst hb
            simpa using hc
  · intro u hu ha hf
    subst hu
    simp [download_cover_tail, ha, hf]

/-- Witness for C10: a successful fetch of `[1]` emits a non-empty payload;
a successful fetch of `[]` emits nothing and logs nothing. -/
theorem c10_cover_payloads_nonempty_witness :
    ([1] : List Nat) ≠ []
    ∧ download_cover_tail (some ("u").data) false (fun _ => .ok []) = ⟨[], []⟩ :=
  ⟨(c10_cover_payloads_nonempty (some (("u").data)) false (fun _ => .ok [1])).1
      [1] (by decide),
   (c10_cover_payloads_nonempty (some (("u").data)) false (fun _ => .ok [])).2
      (("u").data) rfl rfl rfl⟩

/-- Folding list append from `s` prepends `s` to the concatenation. -/
theorem foldl_append_join (la : List Str) (s : Str) :
    la.foldl (· ++ ·) s = s ++ la.flatten := by
  induction la generalizing s with
  | nil => simp
  | cons a t ih => simp [List.foldl, ih]

/-- A truthy bokelai id makes `identify` delegate to the detail retrieval. -/
theorem identify_of_truthy_bokelai (env : SearchEnv) (cache : Cache)
    (abort : Bool) (title : Option Str) (authors : Option (List Str))
    (identifiers : List (Str × Str)) (bid : Str)
    (h : lookup identifiers ("bokelai").data = some bid) (hne : bid ≠ []) :
    identify env cache abort title authors identifiers =
      match retrieve_bokelai_detail bid (env.detailPage bid) env.parse_date cache with
      | .error exn => .error exn
      | .ok d => .ok ⟨[.retrieveDetail bid], d.emitted, d.cache, d.errlog, none⟩ := by
  cases bid with
  | nil => exact absurd rfl hne
  | cons c cs => simp [identify, h]

/-- Without a truthy bokelai id, `identify` runs the search path. -/
theorem identify_of_not_truthy_bokelai (env : SearchEnv) (cache : Cache)
    (abort : Bool) (title : Option Str) (authors : Option (List Str))
    (identifiers : List (Str × Str))
    (h : truthyOpt (lookup identifiers ("bokelai").data) = false) :
    identify env cache abort title authors identifiers =
      identify_search env cache title authors identifiers := by
  cases hl : lookup identifiers (("bokelai").data) with
  | none => simp [identify, hl]
  | some bid =>
    rw [hl] at h
    have hb : bid.isEmpty = true := by simpa [truthyOpt] using h
    simp [identify, hl, hb]

/-- C5 counterexample: the claim keys the first branch on the bokelai id
being *present* in the identifiers map.  The code tests Python truthiness
(`if bokelai_id:`), so an identifiers map carrying the key with an empty
string as value is present yet still sends `identify` down the search path:
its trace is a search fetch, not a detail retrieval. -/
theorem c5_present_empty_id_still_searches :
    lookup [(("bokelai").data, ([] : Str))] ("bokelai").data = some ([] : Str)
    ∧ (identify envC5 [] false (some ("T").data) none
          [(("bokelai").data, ([] : Str))]).map IdentifyOutcome.trace =
        .ok [.searchFetch (BOKELAI_QUERY_URL ("T").data)] := by
  decide

/-- C5 (amended): decision order with first match winning, keyed on Python
truthiness (present *and* non-empty).  A truthy bokelai id delegates to
detail retrieval with no search; otherwise the search path runs, its URL
built from the ISBN when that is truthy, else from the concatenation of the
title and all author names with no separators inserted. -/
theorem c5_identify_decision_order (env : SearchEnv) (cache : Cache)
    (abort : Bool) (title : Option Str) (authors : Option (List Str))
    (identifiers : List (Str × Str)) :
    (∀ bid, lookup identifiers ("bokelai").data = some bid → bid ≠ [] →
      identify env cache abort title authors identifiers =
        match retrieve_bokelai_detail bid (env.detailPage bid) env.parse_date cache with
        | .error exn => .error exn
        | .ok d => .ok ⟨[.retrieveDetail bid], d.emitted, d.cache, d.errlog, none⟩)
    ∧ (truthyOpt (lookup identifiers ("bokelai").data) = false →
        identify env cache abort title authors identifiers =
          identify_search env cache title authors identifiers)
    ∧ (∀ i, lookup identifiers ("isbn").data = some i → i ≠ [] →
        identify_search_url title authors identifiers = BOKELAI_QUERY_URL i)
    ∧ (truthyOpt (lookup identifiers ("isbn").data) = false →
        identify_search_url title authors identifiers =
          BOKELAI_QUERY_URL (search_str_of title authors))
    ∧ (∀ t la, search_str_of (some t) (some la) = t ++ la.flatten) := by
  refine ⟨fun bid h hne => identify_of_truthy_bokelai env cache abort title
    authors identifiers bid h hne,
    fun h => identify_of_not_truthy_bokelai env cache abort title authors
      identifiers h, ?_, ?_, ?_⟩
  · intro i h hne
    cases i with
    | nil => exact absurd rfl hne
    | cons c cs => simp [identify_search_url, h, truthyOpt]
  · intro h
    simp [identify_search_url, h]
  · intro t la
    cases la with
    | nil => cases t <;> simp [search_str_of, truthyOpt]
    | cons a r =>
      cases t with
      | nil => simp [search_str_of, truthyOpt, foldl_append_join]
      | cons c cs => simp [search_str_of, truthyOpt, foldl_append_join]

/-- Witness for C5 at concrete inputs: a truthy bokelai id delegates and
emits the detail record; a truthy ISBN builds the search URL from it; with
neither, the query string is the separator-free concatenation `TAB`. -/
theorem c5_identify_decision_order_witness :
    (identify envC2 [] false none none [(("bokelai").data, ("0010").data)]).map
        IdentifyOutcome.trace = .ok [.retrieveDetail ("0010").data]
    ∧ identify_search_url none none [(("isbn").data, ("9").data)] =
        BOKELAI_QUERY_URL ("9").data
    ∧ search_str_of (some ("T").data) (some [("A").data, ("B").data]) = ("TAB").data :=
  ⟨by
    rw [(c5_identify_decision_order envC2 [] false none none
      [(("bokelai").data, ("0010").data)]).1 (("0010").data) (by decide) (by decide)]
    decide,
   (c5_identify_decision_order envC5 [] false none none
      [(("isbn").data, ("9").data)]).2.2.1 (("9").data) (by decide) (by decide),
   ((c5_identify_decision_order envC5 [] false none none []).2.2.2.2
      (("T").data) [("A").data, ("B").data]).trans (by decide)⟩

/-- C6: error surfacing in `identify`'s search path.  A failed search fetch
logs and returns the error-description string to the caller; a successful
fetch whose parsed candidate list is empty logs the no-result message and
returns `None` with nothing emitted. -/
theorem c6_identify_error_surfacing (env : SearchEnv) (cache : Cache)
    (abort : Bool) (title : Option Str) (authors : Option (List Str))
    (identifiers : List (Str × Str))
    (hnb : truthyOpt (lookup identifiers ("bokelai").data) = false) :
    (∀ e, env.searchPage (identify_search_url title authors identifiers) = .error e →
      identify env cache abort title authors identifiers =
        .ok ⟨[.searchFetch (identify_search_url title authors identifiers)], [], cache,
             [.identifyFetchFailed (identify_search_url title authors identifiers)],
             some e⟩)
    ∧ (∀ hrefs,
        env.searchPage (identify_search_url title authors identifiers) = .ok hrefs →
        parse_bokelai_query_page hrefs = .ok [] →
        identify env cache abort title authors identifiers =
          .ok ⟨[.searchFetch (identify_search_url title authors identifiers)], [], cache,
               [.noResult (identify_search_url title authors identifiers)], none⟩) := by
  constructor
  · intro e he
    rw [identify_of_not_truthy_bokelai env cache abort title authors identifiers hnb]
    simp [identify_search, he]
  · intro hrefs hok hparse
    rw [identify_of_not_truthy_bokelai env cache abort title authors identifiers hnb]
    simp [identify_search, hok, hparse]

/-- Witness for C6: the failed concrete fetch returns the string `boom` and
emits nothing; the empty concrete results page returns `None`, logs the
no-result message and emits nothing. -/
theorem c6_identify_error_surfacing_witness :
    identify envC6err [] false (some ("T").data) none [] =
      .ok ⟨[.searchFetch (BOKELAI_QUERY_URL ("T").data)], [], [],
           [.identifyFetchFailed (BOKELAI_QUERY_URL ("T").data)], some ("boom").data⟩
    ∧ identify envC6empty [] false (some ("T").data) none [] =
      .ok ⟨[.searchFetch (BOKELAI_QUERY_URL ("T").data)], [], [],
           [.noResult (BOKELAI_QUERY_URL ("T").data)], none⟩ :=
  ⟨by
    rw [(c6_identify_error_surfacing envC6err [] false (some (("T").data)) none []
      (by decide)).1 (("boom").data) (by decide)]
    decide,
   by
    rw [(c6_identify_error_surfacing envC6empty [] false (some (("T").data)) none []
      (by decide)).2 [] (by decide) (by decide)]
    decide⟩

/-- C7: when the publication date string is present but the date parser
fails, detail retrieval logs the parse error, leaves the record's date
unset, and still emits the one record with its other fields populated; and
the well-formed string `2020/05/03` parses to a date with day 3. -/
theorem c7_pubdate_failure_nonfatal (bid : Str) (page : DetailPage)
    (pd : Str → Option CalDate) (cache : Cache) (o : DetailOutcome)
    (h : retrieve_bokelai_detail bid (some page) pd cache = .ok o)
    (hne : page.json.datePublished ≠ [])
    (hpd : pd page.json.datePublished = none) :
    (o.emitted.map Record.pubdate = [none]
     ∧ o.errlog = [.pubdateParseFailed page.json.datePublished]
     ∧ o.emitted.map Record.title = [page.json.name]
     ∧ o.emitted.map Record.isbn = [page.json.isbn]
     ∧ o.emitted.map Record.tags = [extractTags page.tagAnchors]
     ∧ o.emitted.map Record.comments = [joinLines page.commentTexts]
     ∧ o.emitted.length = 1)
    ∧ parse_date_spec ("2020/05/03").data = some ⟨2020, 5, 3⟩ := by
  refine ⟨?_, by decide⟩
  rw [retrieve_bokelai_detail_some] at h
  unfold retrieve_detail_parsed at h
  cases ha : page.json.author with
  | nil => rw [ha] at h; simp at h
  | cons a0 ar =>
    rw [ha] at h
    cases hp : page.json.publisher with
    | nil => rw [hp] at h; simp at h
    | cons p0 pr =>
      rw [hp] at h
      cases hc : coverSearch bid page.json.image with
      | none => rw [hc] at h; simp at h
      | some cu =>
        rw [hc] at h
        cases hd : page.json.datePublished with
        | nil => exact absurd hd hne
        | cons d0 dr =>
          rw [hd] at h hpd
          simp only [List.isEmpty_cons, hpd] at h
          cases h
          simp [hd]

/-- C8 counterexample: the claim says the emitted record's identifiers map
is the supplied BookIdentifier map augmented with the site id and the ISBN.
The code builds the map from scratch as `{'bokelai': id, 'isbn': isbn}` —
the supplied map is not even passed to `retrieve_bokelai_detail` — so a
supplied `douban` entry is absent from the emitted record. -/
theorem c8_supplied_identifiers_dropped :
    lookup [(("bokelai").data, ("1").data), (("douban").data, ("x").data)]
        ("douban").data = some ("x").data
    ∧ (identify envC8 [] false none none
          [(("bokelai").data, ("1").data), (("douban").data, ("x").data)]).map
        (fun o => o.emitted.map (fun r => lookup r.identifiers ("douban").data)) =
      .ok [none] := by
  decide

/-- C8 (amended): the emitted record's identifiers map is exactly
`{'bokelai': input id, 'isbn': extracted isbn}`; in particular its
`bokelai` entry is the input id.  The supplied identifiers map is not
propagated. -/
theorem c8_record_identifiers_exact (bid : Str) (page : DetailPage)
    (pd : Str → Option CalDate) (cache : Cache) (o : DetailOutcome)
    (h : retrieve_bokelai_detail bid (some page) pd cache = .ok o) :
    o.emitted.map Record.identifiers =
      [[(("bokelai").data, bid), (("isbn").data, page.json.isbn)]]
    ∧ o.emitted.map (fun r => lookup r.identifiers ("bokelai").data) = [some bid] := by
  rw [retrieve_bokelai_detail_some] at h
  unfold retrieve_detail_parsed at h
  cases ha : page.json.author with
  | nil => rw [ha] at h; simp at h
  | cons a0 ar =>
    rw [ha] at h
    cases hp : page.json.publisher with
    | nil => rw [hp] at h; simp at h
    | cons p0 pr =>
      rw [hp] at h
      cases hc : coverSearch bid page.json.image with
      | none => rw [hc] at h; simp at h
      | some cu =>
        rw [hc] at h
        cases h
        simp [lookup, List.find?]

/-- Witness for C7: retrieving `pageC7` emits its one record with the date
unset and the parse error logged, and `2020/05/03` parses with day 3. -/
theorem c7_pubdate_failure_nonfatal_witness :
    (oC7.emitted.map Record.pubdate = [none]
     ∧ oC7.errlog = [.pubdateParseFailed pageC7.json.datePublished]
     ∧ oC7.emitted.map Record.title = [pageC7.json.name]
     ∧ oC7.emitted.map Record.isbn = [pageC7.json.isbn]
     ∧ oC7.emitted.map Record.tags = [extractTags pageC7.tagAnchors]
     ∧ oC7.emitted.map Record.comments = [joinLines pageC7.commentTexts]
     ∧ oC7.emitted.length = 1)
    ∧ parse_date_spec ("2020/05/03").data = some ⟨2020, 5, 3⟩ :=
  c7_pubdate_failure_nonfatal (("3").data) pageC7 parse_date_spec [] oC7
    (by decide) (by decide) (by decide)

/-- Witness for the amended C8: the record retrieved from `pageC7` carries
exactly the bokelai/isbn identifier pair for its input id. -/
theorem c8_record_identifiers_exact_witness :
    oC7.emitted.map Record.identifiers =
      [[(("bokelai").data, ("3").data), (("isbn").data, pageC7.json.isbn)]]
    ∧ oC7.emitted.map (fun r => lookup r.identifiers ("bokelai").data) =
      [some ("3").data] :=
  c8_record_identifiers_exact (("3").data) pageC7 parse_date_spec [] oC7 (by decide)

end Bokelai
